import Mathlib

/-!
Verification development for the Market Context Dashboard data core
(`app.py`): the schema normalizer `_normalize_close`, the FRED → ^TNX
yield fallback chain, the RSS news fetcher, the TTL cache semantics of
the cached fetchers, and the signal/guidance assembly of
`compute_signals`.

Modelling conventions:
* A pandas timestamp is a `Timestamp`: an instant `t : Int` (days) plus a
  flag `tz` recording whether the value is timezone-aware
  (`tz_localize(None)` clears the flag).
* A cell value is `Option Rat` (`none` models NaN).
* A pandas `DataFrame` is a row index together with a list of columns;
  a column key is a `List String` (singleton for flat column labels,
  longer for `MultiIndex` keys); `isMulti` mirrors
  `isinstance(df.columns, pd.MultiIndex)`.
* String/date/number parsing done by pandas (`pd.to_datetime`,
  `pd.to_numeric`, both with `errors="coerce"`) is modelled by giving each
  raw CSV cell its parse result as an `Option`.
* Python exceptions are modelled with `Except String`; a `try/except`
  becomes a `match` on the `Except` value.
-/

structure Timestamp where
  t : Int
  tz : Bool
deriving DecidableEq, Repr

abbrev Value := Option Rat

/-- Model of a pandas DataFrame: a timestamp row index and a list of
columns, each a (compound) column key with the column cell data. -/
structure DataFrame where
  isMulti : Bool
  index : List Timestamp
  cols : List (List String × List Value)
deriving DecidableEq, Repr

/-- `pd.DataFrame()` — the empty frame. -/
def DataFrame.emptyDF : DataFrame := ⟨false, [], []⟩

/-- `df.empty`: true when the frame has no rows or no columns. -/
def DataFrame.isEmptyB (df : DataFrame) : Bool :=
  df.index.isEmpty || df.cols.isEmpty

/-- `df.columns.get_level_values(lvl)`: the `lvl`-th component of every
column key. -/
def DataFrame.getLevelValues (df : DataFrame) (lvl : Nat) : List String :=
  df.cols.map (fun c => c.1.getD lvl "")

/-- `df.columns.nlevels` (all keys of a MultiIndex share one length). -/
def DataFrame.nlevels (df : DataFrame) : Nat :=
  match df.cols with
  | [] => 0
  | c :: _ => c.1.length

/-- Column projection on a MultiIndex level: `df[tag]` when `lvl = 0`
(drop the outer level), `df.xs(tag, axis=1, level=lvl)` in general
(keep the columns whose key has `tag` at position `lvl`, removing that
position from the key). -/
def selectLevel (df : DataFrame) (tag : String) (lvl : Nat) :
    List (List String × List Value) :=
  df.cols.filterMap (fun c =>
    if c.1.getD lvl "" = tag then some (c.1.eraseIdx lvl, c.2) else none)

/-- `close.columns = [c[0] if isinstance(c, tuple) else c for c in ...]`:
flatten the remaining (possibly still compound) keys to their first
component, producing a flat-column frame over the original index. -/
def flattenCols (idx : List Timestamp) (cs : List (List String × List Value)) :
    DataFrame :=
  ⟨false, idx, cs.map (fun c => ([c.1.headD ""], c.2))⟩

/-- The ticker argument of the fetchers: a single symbol string or a list
of symbols. -/
inductive Tickers where
  | str : String → Tickers
  | list : List String → Tickers
deriving DecidableEq, Repr

/-- `_normalize_close(df, tickers)`: return a frame of Close prices with
single-level columns.  Mirrors `app.py` lines 48–82: `None`/empty guard,
then the MultiIndex branches (tag in level 0, tag in level 1, first
other level containing the tag, otherwise empty), then the flat-column
branch with the single-ticker rename. -/
def normalize_close (odf : Option DataFrame) (tickers : Tickers) : DataFrame :=
  match odf with
  | none => DataFrame.emptyDF
  | some df =>
    if df.isEmptyB then DataFrame.emptyDF
    else if df.isMulti then
      if "Close" ∈ df.getLevelValues 0 then
        flattenCols df.index (selectLevel df "Close" 0)
      else if "Close" ∈ df.getLevelValues 1 then
        flattenCols df.index (selectLevel df "Close" 1)
      else
        match (List.range df.nlevels).filter
            (fun l => decide ("Close" ∈ df.getLevelValues l)) with
        | [] => DataFrame.emptyDF
        | l :: _ => flattenCols df.index (selectLevel df "Close" l)
    else
      if "Close" ∈ df.cols.map (fun c => c.1.headD "") then
        let close := df.cols.filter (fun c => c.1.headD "" == "Close")
        match tickers with
        | Tickers.str t => ⟨false, df.index, close.map (fun c => ([t], c.2))⟩
        | Tickers.list ts =>
          if ts.length = 1 then
            ⟨false, df.index, close.map (fun c => ([ts.headD ""], c.2))⟩
          else ⟨false, df.index, close⟩
      else DataFrame.emptyDF

/-! ## Primary yield source: `fetch_fred_10y_csv` (app.py lines 84–98) -/

/-- The FRED CSV after `pd.read_csv`: the header column names, and per
row the parse results of `pd.to_datetime(..., errors="coerce")` on the
DATE cell (days, timezone-naive) and of
`pd.to_numeric(..., errors="coerce")` on the DGS10 cell. -/
structure FredCSV where
  columns : List String
  rows : List (Option Int × Option Rat)
deriving DecidableEq, Repr

/-- A canonical dated value series (the `ten_year_yield` frames): the
timestamp index paired with the (possibly missing) values. -/
abbrev YieldFrame := List (Timestamp × Option Rat)

/-- The pandas exception raised by the window filter on line 97: the
parsed `date` column is tz-naive while `pd.Timestamp.utcnow()` is
tz-aware, and pandas refuses to compare them. -/
def fredWindowError : String :=
  "Cannot compare tz-naive and tz-aware datetime-like objects"

/-- `fetch_fred_10y_csv()`: the argument is the outcome of the HTTP get +
`read_csv` step (`.error` = transport or parse exception, which the
function lets propagate).  With a parsed table, missing expected columns
raise `ValueError` (app.py 91-92); with both columns present the
row-tolerant parse/drop pipeline of lines 93-96 runs, but the window
filter on line 97 then compares the tz-naive date column against the
tz-aware `pd.Timestamp.utcnow()`, which raises `TypeError` in pandas for
every such input (even an empty one, the check is dtype-level) — so this
branch never returns a series.  The `now` argument models the
`utcnow()` reading; it is unread because the comparison raises before
using it. -/
def fetch_fred_10y_csv (resp : Except String FredCSV) (now : Int) :
    Except String YieldFrame :=
  match resp with
  | Except.error e => Except.error e
  | Except.ok csv =>
    if "DATE" ∈ csv.columns ∧ "DGS10" ∈ csv.columns then
      Except.error fredWindowError
    else Except.error "FRED CSV missing expected columns"

/-! ## Fallback orchestrator: `fetch_10y_yield_series` (app.py 100–116) -/

/-- `fetch_10y_yield_series()`: try FRED; on any exception fall back to the
raw ^TNX download (`raw`), normalize it, raise if the normalized frame is
empty, else divide the first column by 10 and strip the timezone from the
index (`tz_localize(None)`). -/
def fetch_10y_yield_series (fred : Except String FredCSV) (now : Int)
    (raw : Option DataFrame) : Except String YieldFrame :=
  match fetch_fred_10y_csv fred now with
  | Except.ok s => Except.ok s
  | Except.error _ =>
    let close := normalize_close raw (Tickers.str "^TNX")
    if close.isEmptyB then
      Except.error "Unable to fetch ^TNX fallback from Yahoo Finance."
    else
      Except.ok (List.zip (close.index.map (fun ts => ⟨ts.t, false⟩))
        (((close.cols.headD ([], [])).2).map (Option.map (fun v => v / 10))))

/-! ## News fetcher: `fetch_yahoo_rss` (app.py 32–46) -/

/-- A raw `<item>` element of the feed: each child tag may be absent. -/
structure RawRSSItem where
  title : Option String
  link : Option String
  pubDate : Option String
deriving DecidableEq, Repr

/-- The outcome of the HTTP get + XML parse of the feed: either some
exception (network, HTTP status, parser), or the list of `<item>`s. -/
inductive RSSFetch where
  | failure : String → RSSFetch
  | feed : List RawRSSItem → RSSFetch
deriving DecidableEq, Repr

structure NewsItem where
  title : String
  link : String
  pubDate : String
deriving DecidableEq, Repr

/-- The body of `fetch_yahoo_rss(n)`: on success, the first `n` items with
placeholder fields for absent tags; on any exception, the single
synthetic error item.  Note the failure is converted to a *returned*
value. -/
def fetch_yahoo_rss_body (resp : RSSFetch) (n : Nat) : List NewsItem :=
  match resp with
  | RSSFetch.failure e => [⟨"RSS error: " ++ e, "", ""⟩]
  | RSSFetch.feed items =>
    (items.take n).map (fun it =>
      ⟨it.title.getD "Untitled", it.link.getD "", it.pubDate.getD ""⟩)

/-! ## TTL cache: `@st.cache_data(ttl=...)` semantics -/

/-- One call through an `st.cache_data(ttl)`-wrapped function, for a fixed
argument tuple.  `st` is the cache entry for that key (store time and
stored value); `compute` is what the wrapped body does when actually run
(`.error` models the body raising).  Returns the call outcome, the new
cache entry, and whether the body was actually run: a fresh entry within
the TTL is served without running the body; an exception from the body is
propagated and *not* stored. -/
def cachedCall {α : Type} (ttl : Nat) (compute : Except String α) (t : Nat)
    (st : Option (Nat × α)) : Except String α × Option (Nat × α) × Bool :=
  match st with
  | some (t0, v) =>
    if t - t0 < ttl then (Except.ok v, some (t0, v), false)
    else
      match compute with
      | Except.ok w => (Except.ok w, some (t, w), true)
      | Except.error e => (Except.error e, some (t0, v), true)
  | none =>
    match compute with
    | Except.ok w => (Except.ok w, some (t, w), true)
    | Except.error e => (Except.error e, none, true)

/-! ## Signal engine: `compute_signals` (app.py 139–192) -/

def fragVIX : String :=
  "Premiums ↑ → good for **credit** strategies (PUT spreads, covered calls); mind gap risk."

def fragYield : String :=
  "High yields → pressure on growth/AI; pick **conservative strikes** / lower beta where possible."

def fragTech : String :=
  "Tech weak → consider **covered calls** on lagging mega-caps (watch catalysts)."

def fragGold : String :=
  "Risk-off tone → tighten DTE/size; sell puts only near strong supports."

def fragNeutral : String :=
  "Neutral backdrop → standard rules; favor liquid tickers with clear support/resistance."

/-- `x is not None and x >= c`. -/
def trigGe (o : Option Rat) (c : Rat) : Bool :=
  match o with
  | some x => decide (c ≤ x)
  | none => false

/-- `x is not None and x <= c`. -/
def trigLe (o : Option Rat) (c : Rat) : Bool :=
  match o with
  | some x => decide (x ≤ c)
  | none => false

/-- The `guidance` list built by `compute_signals` (app.py 180–190): one
fragment appended per met threshold, in the source order VIX, 10Y,
XLK (tech), Gold; the defensive-sector value `hlth_1d` appends nothing. -/
def guidance_list (vix_last last_10y gold_1m tech_1d : Option Rat) :
    List String :=
  (if trigGe vix_last 20 then [fragVIX] else []) ++
  (if trigGe last_10y 4.25 then [fragYield] else []) ++
  (if trigLe tech_1d (-1) then [fragTech] else []) ++
  (if trigGe gold_1m 2 then [fragGold] else [])

/-- `compute_signals()` given the five extracted indicator values
(`None` when that series was unavailable): the signal rows
(indicator, interpretation) built per available indicator, and the
guidance blurb `" • ".join(guidance)` with the neutral default when no
fragment was appended. -/
def compute_signals (vix_last last_10y gold_1m tech_1d hlth_1d : Option Rat) :
    List (String × String) × String :=
  let signals : List (String × String) :=
    (match vix_last with
     | some v => [("VIX", if (20:Rat) ≤ v then "↑ Premium rich" else "Normal")]
     | none => []) ++
    (match last_10y with
     | some y => [("10Y Yield",
         if (4.25:Rat) ≤ y then "↑ Growth headwind" else "Neutral/Tailwind")]
     | none => []) ++
    (match gold_1m with
     | some g => [("Gold 1M", if (2:Rat) ≤ g then "↑ Risk-off" else "Neutral")]
     | none => []) ++
    (match tech_1d with
     | some t => [("XLK 1D", if t ≤ (-1:Rat) then "Tech weak" else "Stable/Strong")]
     | none => []) ++
    (match hlth_1d with
     | some h => [("XLV 1D", if (0.5:Rat) ≤ h then "Defensive bid" else "Neutral")]
     | none => [])
  let gl := guidance_list vix_last last_10y gold_1m tech_1d
  let gl := if gl.isEmpty then [fragNeutral] else gl
  (signals, String.intercalate " • " gl)

/-! ## Input constructors for the layout-invariance claim -/

/-- A compound-keyed response in field-major layout: outer key level is
the field tag, inner level the ticker.  `pre`/`post` are the other field
tags around `"Close"`, `td` assigns each ticker its Close column, and
`other` gives the cell data of the non-Close fields. -/
def fieldMajorFrame (idx : List Timestamp) (pre post : List String)
    (td : List (String × List Value)) (other : String → String → List Value) :
    DataFrame :=
  ⟨true, idx, (pre ++ "Close" :: post).flatMap
    (fun f => td.map (fun p =>
      ([f, p.1], if f = "Close" then p.2 else other f p.1)))⟩

/-- The same underlying data in ticker-major layout: outer key level is
the ticker, inner level the field tag. -/
def tickerMajorFrame (idx : List Timestamp) (pre post : List String)
    (td : List (String × List Value)) (other : String → String → List Value) :
    DataFrame :=
  ⟨true, idx, td.flatMap
    (fun p => (pre ++ "Close" :: post).map (fun f =>
      ([p.1, f], if f = "Close" then p.2 else other f p.1)))⟩

/-! ## Helper lemmas -/

theorem headD_eq_getD_zero {α : Type} (l : List α) (d : α) :
    l.headD d = l.getD 0 d := by
  cases l <;> rfl

theorem mem_of_getD_ne_default {α : Type} {l : List α} {i : Nat} {d : α}
    (h : l.getD i d ≠ d) : l.getD i d ∈ l := by
  induction l generalizing i with
  | nil => simp [List.getD] at h
  | cons a t ih =>
    cases i with
    | zero => simp
    | succ n =>
      simp only [List.getD_cons_succ] at h ⊢
      exact List.mem_cons_of_mem a (ih h)

theorem close_notMem_level {df : DataFrame}
    (habsent : ∀ c ∈ df.cols, "Close" ∉ c.1) (l : Nat) :
    "Close" ∉ df.getLevelValues l := by
  intro hmem
  rw [DataFrame.getLevelValues, List.mem_map] at hmem
  obtain ⟨c, hc, heq⟩ := hmem
  have hne : c.1.getD l "" ≠ "" := by rw [heq]; decide
  have := mem_of_getD_ne_default hne
  rw [heq] at this
  exact habsent c hc this

/-- C5: for an absent (`None`) raw input, for an empty raw input (no rows
or no columns), and for a raw input whose column keys nowhere contain the
value tag `"Close"` (compound at any level, or flat), `_normalize_close`
returns the empty frame; being a total function, it never raises. -/
theorem C5_empty_or_absent (tk : Tickers) (df dfa : DataFrame)
    (hempty : df.index = [] ∨ df.cols = [])
    (habsent : ∀ c ∈ dfa.cols, "Close" ∉ c.1) :
    normalize_close none tk = DataFrame.emptyDF
    ∧ normalize_close (some df) tk = DataFrame.emptyDF
    ∧ normalize_close (some dfa) tk = DataFrame.emptyDF := by
  refine ⟨rfl, ?_, ?_⟩
  · have h : df.isEmptyB = true := by
      rw [DataFrame.isEmptyB]
      rcases hempty with h | h <;> simp [h]
    simp [normalize_close, h]
  · by_cases he : dfa.isEmptyB = true
    · simp [normalize_close, he]
    · by_cases hm : dfa.isMulti = true
      · have h0 := close_notMem_level habsent 0
        have h1 := close_notMem_level habsent 1
        have hfilt : (List.range dfa.nlevels).filter
            (fun l => decide ("Close" ∈ dfa.getLevelValues l)) = [] := by
          apply List.filter_eq_nil_iff.mpr
          intro l _
          simpa using close_notMem_level habsent l
        simp [normalize_close, he, hm, h0, h1, hfilt]
      · have hm2 : dfa.isMulti = false := by simpa using hm
        have hflat : "Close" ∉ dfa.cols.map (fun c => c.1.headD "") := by
          intro hmem
          obtain ⟨c, hc, heq⟩ := List.mem_map.mp hmem
          have hne : c.1.getD 0 "" ≠ "" := by
            rw [← headD_eq_getD_zero, heq]; decide
          have hmm := mem_of_getD_ne_default hne
          rw [← headD_eq_getD_zero, heq] at hmm
          exact habsent c hc hmm
        simp only [normalize_close, he, hm2, Bool.false_eq_true, if_false]
        rw [if_neg hflat]

/-- C5 witness: the theorem instantiated at an absent input, an empty
frame (no rows), and a compound frame whose keys never mention
`"Close"`. -/
theorem C5_witness :
    normalize_close none (Tickers.str "X") = DataFrame.emptyDF
    ∧ normalize_close (some ⟨false, [], [(["Close"], [])]⟩) (Tickers.str "X")
        = DataFrame.emptyDF
    ∧ normalize_close
        (some ⟨true, [⟨0, false⟩], [(["Open", "AAA"], [some 1])]⟩)
        (Tickers.str "X") = DataFrame.emptyDF :=
  C5_empty_or_absent (Tickers.str "X") ⟨false, [], [(["Close"], [])]⟩
    ⟨true, [⟨0, false⟩], [(["Open", "AAA"], [some 1])]⟩
    (Or.inl rfl) (by decide)



theorem eq_singleton_of_length_one {α : Type} {l : List α} (h : l.length = 1) :
    ∃ a, l = [a] := by
  cases l with
  | nil => simp at h
  | cons a tl =>
    cases tl with
    | nil => exact ⟨a, rfl⟩
    | cons b tl2 => simp only [List.length_cons] at h; omega

theorem headD_beq_close {l : List String} (h : l.headD "" = "Close") :
    (l.headD "" == "Close") = true := by
  rw [h]; rfl

/-- Reduction of `normalize_close` on a nonempty flat-columned frame
containing the `"Close"` column, for a string ticker argument. -/
theorem normalize_close_flat_str (df : DataFrame) (t : String)
    (he : df.isEmptyB = false) (hm : df.isMulti = false)
    (hmem : "Close" ∈ df.cols.map (fun c => c.1.headD "")) :
    normalize_close (some df) (Tickers.str t) =
      ⟨false, df.index,
        (df.cols.filter (fun c => c.1.headD "" == "Close")).map
          (fun c => ([t], c.2))⟩ := by
  show (if df.isEmptyB then DataFrame.emptyDF
    else if df.isMulti then _ else _) = _
  rw [if_neg (by rw [he]; exact Bool.false_ne_true)]
  rw [if_neg (by rw [hm]; exact Bool.false_ne_true)]
  rw [if_pos hmem]

/-- Reduction of `normalize_close` on a nonempty flat-columned frame
containing the `"Close"` column, for a list ticker argument. -/
theorem normalize_close_flat_list (df : DataFrame) (ts : List String)
    (he : df.isEmptyB = false) (hm : df.isMulti = false)
    (hmem : "Close" ∈ df.cols.map (fun c => c.1.headD "")) :
    normalize_close (some df) (Tickers.list ts) =
      (if ts.length = 1 then
        ⟨false, df.index,
          (df.cols.filter (fun c => c.1.headD "" == "Close")).map
            (fun c => ([ts.headD ""], c.2))⟩
      else
        ⟨false, df.index,
          df.cols.filter (fun c => c.1.headD "" == "Close")⟩) := by
  show (if df.isEmptyB then DataFrame.emptyDF
    else if df.isMulti then _ else _) = _
  rw [if_neg (by rw [he]; exact Bool.false_ne_true)]
  rw [if_neg (by rw [hm]; exact Bool.false_ne_true)]
  rw [if_pos hmem]

/-- C10: on a flat-columned raw input that contains the `"Close"` column,
when more than one ticker was requested the column keeps its generic
`"Close"` name (no per-ticker rename), while a single requested ticker —
given as a plain string or as a one-element list — renames the column to
that ticker. -/
theorem C10_flat_rename_only_single (df : DataFrame) (ts : List String)
    (t0 : String)
    (hflat : df.isMulti = false) (hidx : df.index ≠ [])
    (hwf : ∀ c ∈ df.cols, c.1.length = 1)
    (hmem : "Close" ∈ df.cols.map (fun c => c.1.headD ""))
    (hlen : 2 ≤ ts.length) :
    (normalize_close (some df) (Tickers.list ts)).cols
        = df.cols.filter (fun c => c.1.headD "" == "Close")
    ∧ (∀ k ∈ ((normalize_close (some df) (Tickers.list ts)).cols.map Prod.fst),
        k = ["Close"])
    ∧ (normalize_close (some df) (Tickers.list ts)).cols ≠ []
    ∧ (normalize_close (some df) (Tickers.str t0)).cols
        = (df.cols.filter (fun c => c.1.headD "" == "Close")).map
            (fun c => ([t0], c.2))
    ∧ (normalize_close (some df) (Tickers.list [t0])).cols
        = (df.cols.filter (fun c => c.1.headD "" == "Close")).map
            (fun c => ([t0], c.2)) := by
  have hcols : df.cols ≠ [] := by
    intro h
    rw [h] at hmem
    simp at hmem
  have he : df.isEmptyB = false := by
    rw [DataFrame.isEmptyB]
    simp [hidx, hcols]
  have hlen2 : ts.length ≠ 1 := by omega
  have hmain : (normalize_close (some df) (Tickers.list ts)).cols
      = df.cols.filter (fun c => c.1.headD "" == "Close") := by
    rw [normalize_close_flat_list df ts he hflat hmem, if_neg hlen2]
  refine ⟨hmain, ?_, ?_, ?_, ?_⟩
  · intro k hk
    rw [hmain] at hk
    obtain ⟨c, hc, hck⟩ := List.mem_map.mp hk
    obtain ⟨hcmem, hcname⟩ := List.mem_filter.mp hc
    obtain ⟨n, hn⟩ := eq_singleton_of_length_one (hwf c hcmem)
    rw [hn] at hcname
    have hnc : n = "Close" := by simpa using hcname
    rw [← hck, hn, hnc]
  · rw [hmain]
    obtain ⟨c, hc, hck⟩ := List.mem_map.mp hmem
    have hmf : c ∈ df.cols.filter (fun c => c.1.headD "" == "Close") :=
      List.mem_filter.mpr ⟨hc, headD_beq_close hck⟩
    exact List.ne_nil_of_mem hmf
  · rw [normalize_close_flat_str df t0 he hflat hmem]
  · rw [normalize_close_flat_list df [t0] he hflat hmem,
      if_pos (show ([t0] : List String).length = 1 from rfl)]
    rfl

/-- C10 witness: a flat two-column frame with a `"Close"` column; the
two-ticker request keeps the name `"Close"`, the single-string request
renames it to `"AAA"`. -/
theorem C10_witness :
    (normalize_close
        (some ⟨false, [⟨0, false⟩],
          [(["Close"], [some 1]), (["Open"], [some 2])]⟩)
        (Tickers.list ["AAA", "BBB"])).cols
      = [(["Close"], [some 1])]
    ∧ (normalize_close
        (some ⟨false, [⟨0, false⟩],
          [(["Close"], [some 1]), (["Open"], [some 2])]⟩)
        (Tickers.str "AAA")).cols
      = [(["AAA"], [some 1])] := by
  have h := C10_flat_rename_only_single
    ⟨false, [⟨0, false⟩], [(["Close"], [some 1]), (["Open"], [some 2])]⟩
    ["AAA", "BBB"] "AAA" rfl (by decide)
    (by decide) (by decide) (by decide)
  exact ⟨by rw [h.1]; rfl, by rw [h.2.2.2.1]; rfl⟩

/-- The FRED fetch never succeeds: transport/parse failures propagate,
missing columns raise `ValueError`, and with both columns present the
tz-naive-vs-aware window comparison of app.py line 97 raises
`TypeError`. -/
theorem fred_never_ok (resp : Except String FredCSV) (now : Int)
    (s : YieldFrame) :
    fetch_fred_10y_csv resp now ≠ Except.ok s := by
  intro h
  cases resp with
  | error e =>
    rw [fetch_fred_10y_csv] at h
    exact absurd h (by simp)
  | ok csv =>
    rw [fetch_fred_10y_csv] at h
    by_cases hc : "DATE" ∈ csv.columns ∧ "DGS10" ∈ csv.columns
    · rw [if_pos hc] at h
      exact absurd h (by simp)
    · rw [if_neg hc] at h
      exact absurd h (by simp)

/-- C3 (code bug): the claim describes the intended behaviour â row-level
parse failures dropped individually, a trailing 120-day window, an
empty-after-filter result returned as a successful empty series â but
for every CSV in which both expected columns are present the program
raises before it can return: app.py line 97 compares the tz-naive parsed
date column with the tz-aware `pd.Timestamp.utcnow()`, a `TypeError` in
pandas, so the fetch never produces the filtered (or successful empty)
series and always falls through to the fallback. -/
theorem C3_window_comparison_raises (csv : FredCSV) (now : Int)
    (hD : "DATE" ∈ csv.columns) (hY : "DGS10" ∈ csv.columns) :
    fetch_fred_10y_csv (Except.ok csv) now = Except.error fredWindowError
    ∧ ∀ s, fetch_fred_10y_csv (Except.ok csv) now ≠ Except.ok s := by
  have h : fetch_fred_10y_csv (Except.ok csv) now
      = Except.error fredWindowError := by
    rw [fetch_fred_10y_csv, if_pos ⟨hD, hY⟩]
  exact ⟨h, fun s => fred_never_ok (Except.ok csv) now s⟩

/-- C3 witness: a well-formed two-column CSV with one cleanly parseable
in-window row still raises at the window comparison instead of returning
the one-row series the claim predicts. -/
theorem C3_witness :
    fetch_fred_10y_csv
        (Except.ok ⟨["DATE", "DGS10"], [(some 100, some 4)]⟩) 200
      = Except.error fredWindowError
    ∧ fetch_fred_10y_csv
        (Except.ok ⟨["DATE", "DGS10"], [(some 100, some 4)]⟩) 200
      ≠ Except.ok [(⟨100, false⟩, some 4)] :=
  ⟨(C3_window_comparison_raises ⟨["DATE", "DGS10"], [(some 100, some 4)]⟩
      200 (by decide) (by decide)).1,
   (C3_window_comparison_raises ⟨["DATE", "DGS10"], [(some 100, some 4)]⟩
      200 (by decide) (by decide)).2 [(⟨100, false⟩, some 4)]⟩

/-- C4: if the primary FRED fetch fails (raises) and the normalized
secondary (^TNX) frame is empty, `fetch_10y_yield_series` fails with the
identifiable terminal error message — never with an empty success, and no
further source is consulted. -/
theorem C4_terminal_failure (fred : Except String FredCSV) (now : Int)
    (raw : Option DataFrame) (e : String)
    (hfail : fetch_fred_10y_csv fred now = Except.error e)
    (hempty : (normalize_close raw (Tickers.str "^TNX")).isEmptyB = true) :
    fetch_10y_yield_series fred now raw
      = Except.error "Unable to fetch ^TNX fallback from Yahoo Finance."
    ∧ ∀ s, fetch_10y_yield_series fred now raw ≠ Except.ok s := by
  have h : fetch_10y_yield_series fred now raw
      = Except.error "Unable to fetch ^TNX fallback from Yahoo Finance." := by
    rw [fetch_10y_yield_series, hfail]
    simp only [hempty, if_true]
  exact ⟨h, fun s hs => by rw [h] at hs; exact absurd hs (by simp)⟩

/-- C4 witness: transport failure on the primary source and a `None`
secondary download. -/
theorem C4_witness :
    fetch_10y_yield_series (Except.error "net down") 0 none
      = Except.error "Unable to fetch ^TNX fallback from Yahoo Finance."
    ∧ fetch_10y_yield_series (Except.error "net down") 0 none
      ≠ Except.ok [] :=
  ⟨(C4_terminal_failure (Except.error "net down") 0 none "net down"
      rfl rfl).1,
   (C4_terminal_failure (Except.error "net down") 0 none "net down"
      rfl rfl).2 []⟩

/-- C2: when the primary FRED CSV is structurally malformed (an expected
column is missing, so `fetch_fred_10y_csv` raises) and the normalized
secondary frame is nonempty, `fetch_10y_yield_series` returns the
^TNX-derived series: its index is the normalized index with timezone
information stripped, its values are the normalized first column divided
by 10, and every returned timestamp is timezone-naive. -/
theorem C2_fallback_scaled (csv : FredCSV) (now : Int) (raw : Option DataFrame)
    (hfail : "DATE" ∉ csv.columns ∨ "DGS10" ∉ csv.columns)
    (hne : (normalize_close raw (Tickers.str "^TNX")).isEmptyB = false)
    (hlen : ((normalize_close raw (Tickers.str "^TNX")).cols.headD
        ([], [])).2.length
      = (normalize_close raw (Tickers.str "^TNX")).index.length) :
    fetch_10y_yield_series (Except.ok csv) now raw
      = Except.ok (List.zip
          ((normalize_close raw (Tickers.str "^TNX")).index.map
            (fun ts => ⟨ts.t, false⟩))
          (((normalize_close raw (Tickers.str "^TNX")).cols.headD
              ([], [])).2.map (Option.map (fun v => v / 10))))
    ∧ (List.zip
          ((normalize_close raw (Tickers.str "^TNX")).index.map
            (fun ts => (⟨ts.t, false⟩ : Timestamp)))
          (((normalize_close raw (Tickers.str "^TNX")).cols.headD
              ([], [])).2.map (Option.map (fun v => v / 10)))).map Prod.fst
        = (normalize_close raw (Tickers.str "^TNX")).index.map
            (fun ts => ⟨ts.t, false⟩)
    ∧ (List.zip
          ((normalize_close raw (Tickers.str "^TNX")).index.map
            (fun ts => (⟨ts.t, false⟩ : Timestamp)))
          (((normalize_close raw (Tickers.str "^TNX")).cols.headD
              ([], [])).2.map (Option.map (fun v => v / 10)))).map Prod.snd
        = ((normalize_close raw (Tickers.str "^TNX")).cols.headD
            ([], [])).2.map (Option.map (fun v => v / 10))
    ∧ ∀ p ∈ (List.zip
          ((normalize_close raw (Tickers.str "^TNX")).index.map
            (fun ts => (⟨ts.t, false⟩ : Timestamp)))
          (((normalize_close raw (Tickers.str "^TNX")).cols.headD
              ([], [])).2.map (Option.map (fun v => v / 10)))),
        p.1.tz = false := by
  have hfred : fetch_fred_10y_csv (Except.ok csv) now
      = Except.error "FRED CSV missing expected columns" := by
    rw [fetch_fred_10y_csv, if_neg (by tauto)]
  refine ⟨?_, ?_, ?_, ?_⟩
  · rw [fetch_10y_yield_series, hfred]
    simp only [hne, Bool.false_eq_true, if_false]
  · apply List.map_fst_zip
    rw [List.length_map, List.length_map, hlen]
  · apply List.map_snd_zip
    rw [List.length_map, List.length_map, hlen]
  · intro p hp
    have h1 := List.of_mem_zip hp
    obtain ⟨ts, _, hts⟩ := List.mem_map.mp h1.1
    rw [← hts]

/-- C2 witness: FRED CSV missing the `DGS10` column; the secondary frame
holds ^TNX closes 42 and a NaN, returned divided by 10 on a naive index. -/
theorem C2_witness :
    fetch_10y_yield_series (Except.ok ⟨["DATE"], []⟩) 0
        (some ⟨false, [⟨0, true⟩, ⟨1, true⟩],
          [(["Close"], [some 42, none])]⟩)
      = Except.ok [(⟨0, false⟩, some (42 / 10)), (⟨1, false⟩, none)] := by
  have h := C2_fallback_scaled ⟨["DATE"], []⟩ 0
    (some ⟨false, [⟨0, true⟩, ⟨1, true⟩], [(["Close"], [some 42, none])]⟩)
    (Or.inr (by decide)) rfl rfl
  rw [h.1]
  rfl

theorem flatMap_nil_of_forall {α β : Type} (l : List α) (f : α → List β)
    (h : ∀ x ∈ l, f x = []) : l.flatMap f = [] := by
  induction l with
  | nil => rfl
  | cons a t ih =>
    rw [List.flatMap_cons, h a (List.mem_cons_self a t), List.nil_append]
    exact ih (fun x hx => h x (List.mem_cons_of_mem a hx))

theorem filterMap_nil_of_forall {α β : Type} (l : List α) (f : α → Option β)
    (h : ∀ x ∈ l, f x = none) : l.filterMap f = [] := by
  induction l with
  | nil => rfl
  | cons a t ih =>
    rw [List.filterMap_cons, h a (List.mem_cons_self a t)]
    exact ih (fun x hx => h x (List.mem_cons_of_mem a hx))

theorem filterMap_flatMap_eq {α β γ : Type} (l : List α) (g : α → List β)
    (f : β → Option γ) :
    (l.flatMap g).filterMap f = l.flatMap (fun a => (g a).filterMap f) := by
  induction l with
  | nil => rfl
  | cons a t ih =>
    rw [List.flatMap_cons, List.filterMap_append, ih, List.flatMap_cons]

theorem flatMap_ite_single {α β : Type} [DecidableEq α] (pre post : List α)
    (a : α) (hpre : a ∉ pre) (hpost : a ∉ post) (M : α → List β) :
    ((pre ++ a :: post).flatMap (fun x => if x = a then M x else [])) = M a := by
  rw [List.flatMap_append, List.flatMap_cons]
  rw [flatMap_nil_of_forall pre _
    (fun x hx => if_neg (by intro he; rw [he] at hx; exact hpre hx))]
  rw [flatMap_nil_of_forall post _
    (fun x hx => if_neg (by intro he; rw [he] at hx; exact hpost hx))]
  rw [if_pos rfl]
  simp

theorem filterMap_ite_single {α β : Type} [DecidableEq α] (pre post : List α)
    (a : α) (hpre : a ∉ pre) (hpost : a ∉ post) (b : α → β) :
    ((pre ++ a :: post).filterMap
      (fun x => if x = a then some (b x) else none)) = [b a] := by
  rw [List.filterMap_append, List.filterMap_cons]
  rw [filterMap_nil_of_forall pre _
    (fun x hx => if_neg (by intro he; rw [he] at hx; exact hpre hx))]
  rw [filterMap_nil_of_forall post _
    (fun x hx => if_neg (by intro he; rw [he] at hx; exact hpost hx))]
  rw [if_pos rfl]
  rfl

theorem flatMap_singleton_eq_map {α β : Type} (l : List α) (g : α → β) :
    l.flatMap (fun x => [g x]) = l.map g := by
  induction l with
  | nil => rfl
  | cons a t ih => rw [List.flatMap_cons, List.map_cons, ih]; rfl

theorem isEmptyB_false_of {b : Bool} {idx : List Timestamp}
    {cols : List (List String × List Value)}
    (hidx : idx ≠ []) (hcols : cols ≠ []) :
    DataFrame.isEmptyB ⟨b, idx, cols⟩ = false := by
  rw [DataFrame.isEmptyB]
  cases idx with
  | nil => exact absurd rfl hidx
  | cons a t =>
    cases cols with
    | nil => exact absurd rfl hcols
    | cons c cs => rfl

/-- Reduction of `normalize_close` on a nonempty MultiIndex frame with the
tag in the outer key level. -/
theorem normalize_close_multi0 (df : DataFrame) (tk : Tickers)
    (he : df.isEmptyB = false) (hm : df.isMulti = true)
    (hmem : "Close" ∈ df.getLevelValues 0) :
    normalize_close (some df) tk
      = flattenCols df.index (selectLevel df "Close" 0) := by
  show (if df.isEmptyB then DataFrame.emptyDF
    else if df.isMulti then _ else _) = _
  rw [if_neg (by rw [he]; exact Bool.false_ne_true)]
  rw [if_pos hm, if_pos hmem]

/-- Reduction of `normalize_close` on a nonempty MultiIndex frame with the
tag absent from the outer but present in the inner key level. -/
theorem normalize_close_multi1 (df : DataFrame) (tk : Tickers)
    (he : df.isEmptyB = false) (hm : df.isMulti = true)
    (h0 : "Close" ∉ df.getLevelValues 0)
    (h1 : "Close" ∈ df.getLevelValues 1) :
    normalize_close (some df) tk
      = flattenCols df.index (selectLevel df "Close" 1) := by
  show (if df.isEmptyB then DataFrame.emptyDF
    else if df.isMulti then _ else _) = _
  rw [if_neg (by rw [he]; exact Bool.false_ne_true)]
  rw [if_pos hm, if_neg h0, if_pos h1]

theorem selectLevel_fieldMajor (idx : List Timestamp) (pre post : List String)
    (td : List (String × List Value)) (other : String → String → List Value)
    (hpre : "Close" ∉ pre) (hpost : "Close" ∉ post) :
    selectLevel (fieldMajorFrame idx pre post td other) "Close" 0
      = td.map (fun p => ([p.1], p.2)) := by
  show ((pre ++ "Close" :: post).flatMap
      (fun f => td.map (fun p =>
        ([f, p.1], if f = "Close" then p.2 else other f p.1)))).filterMap
    (fun c => if c.1.getD 0 "" = "Close"
      then some (c.1.eraseIdx 0, c.2) else none) = _
  rw [filterMap_flatMap_eq]
  have hblock : ∀ f : String,
      (td.map (fun p => (([f, p.1] : List String),
          if f = "Close" then p.2 else other f p.1))).filterMap
        (fun c => if c.1.getD 0 "" = "Close"
          then some (c.1.eraseIdx 0, c.2) else none)
      = if f = "Close" then td.map (fun p => ([p.1], p.2)) else [] := by
    intro f
    by_cases hf : f = "Close"
    · subst hf
      rw [if_pos rfl]
      induction td with
      | nil => rfl
      | cons q qs ih =>
        rw [List.map_cons, List.filterMap_cons, List.map_cons, ih]
        simp [List.eraseIdx]
    · rw [if_neg hf]
      apply filterMap_nil_of_forall
      intro c hc
      obtain ⟨p, _, hp⟩ := List.mem_map.mp hc
      rw [← hp]
      simp only [List.getD_cons_zero]
      exact if_neg hf
  have hcongr : (pre ++ "Close" :: post).flatMap
      (fun f => (td.map (fun p => (([f, p.1] : List String),
          if f = "Close" then p.2 else other f p.1))).filterMap
        (fun c => if c.1.getD 0 "" = "Close"
          then some (c.1.eraseIdx 0, c.2) else none))
      = (pre ++ "Close" :: post).flatMap
        (fun f => if f = "Close" then td.map (fun p => ([p.1], p.2)) else []) := by
    exact congrArg _ (funext hblock)
  rw [hcongr]
  rw [flatMap_ite_single pre post "Close" hpre hpost]

theorem selectLevel_tickerMajor (idx : List Timestamp) (pre post : List String)
    (td : List (String × List Value)) (other : String → String → List Value)
    (hpre : "Close" ∉ pre) (hpost : "Close" ∉ post) :
    selectLevel (tickerMajorFrame idx pre post td other) "Close" 1
      = td.map (fun p => ([p.1], p.2)) := by
  show (td.flatMap
      (fun p => (pre ++ "Close" :: post).map (fun f =>
        ([p.1, f], if f = "Close" then p.2 else other f p.1)))).filterMap
    (fun c => if c.1.getD 1 "" = "Close"
      then some (c.1.eraseIdx 1, c.2) else none) = _
  rw [filterMap_flatMap_eq]
  have hblock : ∀ p : String × List Value,
      ((pre ++ "Close" :: post).map (fun f => (([p.1, f] : List String),
          if f = "Close" then p.2 else other f p.1))).filterMap
        (fun c => if c.1.getD 1 "" = "Close"
          then some (c.1.eraseIdx 1, c.2) else none)
      = [([p.1], p.2)] := by
    intro p
    have hfn : ((fun c => if c.1.getD 1 "" = "Close"
          then some (c.1.eraseIdx 1, c.2) else none)
        ∘ (fun f => (([p.1, f] : List String),
            if f = "Close" then p.2 else other f p.1)))
        = (fun f => if f = "Close"
            then some (([p.1] : List String), p.2) else none) := by
      funext f
      by_cases hf : f = "Close"
      · subst hf
        simp [Function.comp, List.eraseIdx]
      · simp [Function.comp, hf]
    rw [List.filterMap_map, hfn]
    exact filterMap_ite_single pre post "Close" hpre hpost
      (fun _ => (([p.1] : List String), p.2))
  have hcongr : td.flatMap
      (fun p => ((pre ++ "Close" :: post).map (fun f =>
          (([p.1, f] : List String),
            if f = "Close" then p.2 else other f p.1))).filterMap
        (fun c => if c.1.getD 1 "" = "Close"
          then some (c.1.eraseIdx 1, c.2) else none))
      = td.flatMap (fun p => [(([p.1] : List String), p.2)]) := by
    exact congrArg _ (funext hblock)
  rw [hcongr, flatMap_singleton_eq_map]

/-- C1: the same underlying (timestamp, ticker, close-value) data, laid
out field-major (value tag in the outer key level) or ticker-major (value
tag in the inner key level), normalizes to the identical canonical
result: one flat column per ticker holding its Close values over the
original index. -/
theorem C1_layout_invariance (idx : List Timestamp) (pre post : List String)
    (td : List (String × List Value)) (other : String → String → List Value)
    (tk : Tickers)
    (hpre : "Close" ∉ pre) (hpost : "Close" ∉ post)
    (htick : "Close" ∉ td.map Prod.fst)
    (hidx : idx ≠ []) (htd : td ≠ []) :
    normalize_close (some (fieldMajorFrame idx pre post td other)) tk
      = normalize_close (some (tickerMajorFrame idx pre post td other)) tk
    ∧ normalize_close (some (fieldMajorFrame idx pre post td other)) tk
      = ⟨false, idx, td.map (fun p => ([p.1], p.2))⟩ := by
  obtain ⟨p0, rest, htd_eq⟩ := List.exists_cons_of_ne_nil htd
  have hp0 : p0 ∈ td := by
    rw [htd_eq]
    exact List.mem_cons_self p0 rest
  have hclosef : "Close" ∈ pre ++ "Close" :: post :=
    List.mem_append_right pre (List.mem_cons_self _ _)
  have hcol_fm : ((["Close", p0.1] : List String),
      if "Close" = "Close" then p0.2 else other "Close" p0.1)
      ∈ (fieldMajorFrame idx pre post td other).cols :=
    List.mem_flatMap.mpr ⟨"Close", hclosef, List.mem_map.mpr ⟨p0, hp0, rfl⟩⟩
  have hfm_e : (fieldMajorFrame idx pre post td other).isEmptyB = false :=
    isEmptyB_false_of hidx (List.ne_nil_of_mem hcol_fm)
  have hfm_m0 : "Close"
      ∈ (fieldMajorFrame idx pre post td other).getLevelValues 0 :=
    List.mem_map.mpr ⟨_, hcol_fm, rfl⟩
  have hcol_tm : (([p0.1, "Close"] : List String),
      if "Close" = "Close" then p0.2 else other "Close" p0.1)
      ∈ (tickerMajorFrame idx pre post td other).cols :=
    List.mem_flatMap.mpr ⟨p0, hp0, List.mem_map.mpr ⟨"Close", hclosef, rfl⟩⟩
  have htm_e : (tickerMajorFrame idx pre post td other).isEmptyB = false :=
    isEmptyB_false_of hidx (List.ne_nil_of_mem hcol_tm)
  have htm_m1 : "Close"
      ∈ (tickerMajorFrame idx pre post td other).getLevelValues 1 :=
    List.mem_map.mpr ⟨_, hcol_tm, rfl⟩
  have htm_m0 : "Close"
      ∉ (tickerMajorFrame idx pre post td other).getLevelValues 0 := by
    intro hmem
    rw [DataFrame.getLevelValues] at hmem
    obtain ⟨c, hc, heq⟩ := List.mem_map.mp hmem
    obtain ⟨p, hptd, hcp⟩ := List.mem_flatMap.mp hc
    obtain ⟨f, hff, hcf⟩ := List.mem_map.mp hcp
    rw [← hcf] at heq
    have hp1 : p.1 = "Close" := by simpa using heq
    exact htick (List.mem_map.mpr ⟨p, hptd, hp1⟩)
  have hmainf : normalize_close (some (fieldMajorFrame idx pre post td other))
      tk = ⟨false, idx, td.map (fun p => ([p.1], p.2))⟩ := by
    rw [normalize_close_multi0 _ tk hfm_e rfl hfm_m0]
    rw [selectLevel_fieldMajor idx pre post td other hpre hpost]
    rw [flattenCols]
    simp [List.map_map, List.headD]
    rfl
  have hmaint : normalize_close (some (tickerMajorFrame idx pre post td other))
      tk = ⟨false, idx, td.map (fun p => ([p.1], p.2))⟩ := by
    rw [normalize_close_multi1 _ tk htm_e rfl htm_m0 htm_m1]
    rw [selectLevel_tickerMajor idx pre post td other hpre hpost]
    rw [flattenCols]
    simp [List.map_map, List.headD]
    rfl
  exact ⟨hmainf.trans hmaint.symm, hmainf⟩

/-- C1 witness: two tickers with Open/Close/Volume fields; both layouts
normalize to the same two flat per-ticker Close columns. -/
theorem C1_witness :
    normalize_close
        (some (fieldMajorFrame [⟨0, false⟩, ⟨1, false⟩] ["Open"] ["Volume"]
          [("AAA", [some 1, some 2]), ("BBB", [some 3, some 4])]
          (fun _ _ => [none, none])))
        (Tickers.list ["AAA", "BBB"])
      = normalize_close
        (some (tickerMajorFrame [⟨0, false⟩, ⟨1, false⟩] ["Open"] ["Volume"]
          [("AAA", [some 1, some 2]), ("BBB", [some 3, some 4])]
          (fun _ _ => [none, none])))
        (Tickers.list ["AAA", "BBB"])
    ∧ normalize_close
        (some (fieldMajorFrame [⟨0, false⟩, ⟨1, false⟩] ["Open"] ["Volume"]
          [("AAA", [some 1, some 2]), ("BBB", [some 3, some 4])]
          (fun _ _ => [none, none])))
        (Tickers.list ["AAA", "BBB"])
      = ⟨false, [⟨0, false⟩, ⟨1, false⟩],
          [(["AAA"], [some 1, some 2]), (["BBB"], [some 3, some 4])]⟩ := by
  have h := C1_layout_invariance [⟨0, false⟩, ⟨1, false⟩] ["Open"] ["Volume"]
    [("AAA", [some 1, some 2]), ("BBB", [some 3, some 4])]
    (fun _ _ => [none, none]) (Tickers.list ["AAA", "BBB"])
    (by decide) (by decide) (by decide) (by decide) (by decide)
  exact ⟨h.1, by rw [h.2]; rfl⟩

/-- C6 counterexample: the defensive-sector threshold is met
(`hlth_1d = 1 ≥ 0.5`, and the `"Defensive bid"` signal row is produced),
yet with no other indicator available the guidance string is the neutral
default — so the guidance is *not* the concatenation of a fragment per met
threshold over all five indicators, and "neutral exactly when zero
thresholds trigger" fails as stated. -/
theorem C6_counterexample :
    (0.5 : Rat) ≤ 1
    ∧ (compute_signals none none none none (some 1)).1
        = [("XLV 1D", "Defensive bid")]
    ∧ (compute_signals none none none none (some 1)).2 = fragNeutral := by
  have h05 : (0.5 : Rat) ≤ 1 := by norm_num
  refine ⟨h05, ?_, rfl⟩
  simp [compute_signals, h05]

/-- C6 (amended): the guidance string assembles, in the fixed order VIX,
10-year yield, growth sector, commodity, one advice fragment per met
threshold of those *four* indicators only — the defensive-sector input
never contributes a fragment (it only labels its signal row) — it equals
the single neutral default exactly when none of those four thresholds
trigger, and it is never empty. -/
theorem C6_amended (v y g t h1 h2 : Option Rat) :
    ((compute_signals v y g t h1).2 = fragNeutral ↔
      ¬((∃ x, v = some x ∧ (20:Rat) ≤ x) ∨ (∃ x, y = some x ∧ (4.25:Rat) ≤ x)
        ∨ (∃ x, t = some x ∧ x ≤ (-1:Rat))
        ∨ (∃ x, g = some x ∧ (2:Rat) ≤ x)))
    ∧ (compute_signals v y g t h1).2 = (compute_signals v y g t h2).2
    ∧ (compute_signals v y g t h1).2 ≠ "" := by
  have htg : ∀ (o : Option Rat) (c : Rat),
      trigGe o c = true ↔ ∃ x, o = some x ∧ c ≤ x := by
    intro o c
    cases o <;> simp [trigGe]
  have htl : ∀ (o : Option Rat) (c : Rat),
      trigLe o c = true ↔ ∃ x, o = some x ∧ x ≤ c := by
    intro o c
    cases o <;> simp [trigLe]
  have key : (compute_signals v y g t h1).2
      = " • ".intercalate (if (guidance_list v y g t).isEmpty
          then [fragNeutral] else guidance_list v y g t) := rfl
  refine ⟨?_, rfl, ?_⟩
  · rw [← htg v 20, ← htg y 4.25, ← htl t (-1), ← htg g 2, key]
    rw [guidance_list]
    cases hv : trigGe v 20 <;> cases hy : trigGe y 4.25 <;>
      cases ht : trigLe t (-1) <;> cases hg : trigGe g 2 <;>
      simp_all <;> decide
  · rw [key, guidance_list]
    cases hv : trigGe v 20 <;> cases hy : trigGe y 4.25 <;>
      cases ht : trigLe t (-1) <;> cases hg : trigGe g 2 <;>
      simp_all <;> decide

/-- The first cached call to `fetch_yahoo_rss` when the underlying feed
fetch fails: the body returns (not raises) the synthetic error item, so
the cache stores it. -/
def rssCacheCall1 : Except String (List NewsItem)
    × Option (Nat × List NewsItem) × Bool :=
  cachedCall 600 (Except.ok (fetch_yahoo_rss_body (RSSFetch.failure "boom") 8))
    0 none

/-- The second cached call, one second later with identical arguments. -/
def rssCacheCall2 : Except String (List NewsItem)
    × Option (Nat × List NewsItem) × Bool :=
  cachedCall 600 (Except.ok (fetch_yahoo_rss_body (RSSFetch.failure "boom") 8))
    1 rssCacheCall1.2.1

/-- C7 counterexample: `fetch_yahoo_rss` converts a failed fetch into a
*returned* synthetic item list, which the TTL cache stores like any
success; the very next call with identical arguments is served from the
cache (third component `false`: the body did not run again), so the
failed outcome is suppressed for the TTL window rather than re-fetched. -/
theorem C7_counterexample :
    rssCacheCall1.1 = Except.ok [⟨"RSS error: boom", "", ""⟩]
    ∧ rssCacheCall2.2.2 = false
    ∧ rssCacheCall2.1 = Except.ok [⟨"RSS error: boom", "", ""⟩] :=
  ⟨rfl, rfl, rfl⟩

/-- C7 (amended): fetchers that signal failure by *raising* — the yield
orchestrator among them — are indeed never cached: the raised error
propagates, the cache entry stays absent, and the very next call with
identical arguments runs the body again.  (`fetch_yahoo_rss` is the
exception: it returns its failure as a value, which is cached; see the
counterexample.) -/
theorem C7_amended (fred : Except String FredCSV) (now : Int)
    (raw : Option DataFrame) (e : String)
    (hfail : fetch_10y_yield_series fred now raw = Except.error e)
    (ttl tm tm2 : Nat) (c2 : Except String YieldFrame) :
    cachedCall ttl (fetch_10y_yield_series fred now raw) tm none
        = (Except.error e, none, true)
    ∧ (cachedCall ttl c2 tm2
        (cachedCall ttl (fetch_10y_yield_series fred now raw) tm none).2.1
      ).2.2 = true := by
  rw [hfail]
  exact ⟨rfl, by cases c2 <;> rfl⟩

/-- C7 witness: a failing primary and an absent secondary download make
the yield fetch raise; the cache does not store the failure and the next
call re-runs the body. -/
theorem C7_witness :
    cachedCall 900
        (fetch_10y_yield_series (Except.error "net down") 0 none) 5 none
      = (Except.error "Unable to fetch ^TNX fallback from Yahoo Finance.",
         none, true)
    ∧ (cachedCall 900 (Except.ok ([] : YieldFrame)) 6
        (cachedCall 900
          (fetch_10y_yield_series (Except.error "net down") 0 none)
          5 none).2.1).2.2 = true :=
  C7_amended (Except.error "net down") 0 none
    "Unable to fetch ^TNX fallback from Yahoo Finance." rfl
    900 5 6 (Except.ok [])

/-- C8 counterexample: a feed that parses successfully but contains zero
`<item>` elements makes `fetch_yahoo_rss` return the empty list — the
presentation layer can receive an empty list, so "always non-empty" fails
as stated. -/
theorem C8_counterexample :
    fetch_yahoo_rss_body (RSSFetch.feed []) 8 = [] := rfl

/-- C8 (amended): on total fetch failure `fetch_yahoo_rss` returns exactly
one synthetic error-describing item, and whenever the feed has at least
one item (and at least one was requested) the returned list is non-empty;
only a successfully parsed feed with zero items (or a zero-item request)
yields an empty list. -/
theorem C8_amended (e : String) (items : List RawRSSItem) (n : Nat)
    (hi : items ≠ []) (hn : 1 ≤ n) :
    fetch_yahoo_rss_body (RSSFetch.failure e) n
      = [⟨"RSS error: " ++ e, "", ""⟩]
    ∧ fetch_yahoo_rss_body (RSSFetch.feed items) n ≠ [] := by
  refine ⟨rfl, ?_⟩
  cases items with
  | nil => exact absurd rfl hi
  | cons a l =>
    cases n with
    | zero => omega
    | succ m => simp [fetch_yahoo_rss_body]

/-- C8 witness: a failure and a one-item feed, eight items requested. -/
theorem C8_witness :
    fetch_yahoo_rss_body (RSSFetch.failure "boom") 8
      = [⟨"RSS error: boom", "", ""⟩]
    ∧ fetch_yahoo_rss_body
        (RSSFetch.feed [⟨some "T", none, none⟩]) 8 ≠ [] :=
  C8_amended "boom" [⟨some "T", none, none⟩] 8 (by decide) (by decide)

/-- A compound raw response whose own index is out of order and
timezone-aware. -/
def badFrame : DataFrame :=
  ⟨true, [⟨5, true⟩, ⟨3, true⟩], [(["Close", "AAA"], [some 1, some 2])]⟩

/-- Remaining branch reductions of `normalize_close`, used to show it
always passes the raw index through unchanged. -/
theorem normalize_close_empty_case (df : DataFrame) (tk : Tickers)
    (he : df.isEmptyB = true) :
    normalize_close (some df) tk = DataFrame.emptyDF := by
  show (if df.isEmptyB then DataFrame.emptyDF
    else if df.isMulti then _ else _) = _
  rw [if_pos he]

theorem normalize_close_multi_rest (df : DataFrame) (tk : Tickers)
    (he : df.isEmptyB = false) (hm : df.isMulti = true)
    (h0 : "Close" ∉ df.getLevelValues 0)
    (h1 : "Close" ∉ df.getLevelValues 1) :
    normalize_close (some df) tk
      = (match (List.range df.nlevels).filter
            (fun l => decide ("Close" ∈ df.getLevelValues l)) with
        | [] => DataFrame.emptyDF
        | l :: _ => flattenCols df.index (selectLevel df "Close" l)) := by
  show (if df.isEmptyB then DataFrame.emptyDF
    else if df.isMulti then _ else _) = _
  rw [if_neg (by rw [he]; exact Bool.false_ne_true)]
  rw [if_pos hm, if_neg h0, if_neg h1]

theorem normalize_close_flat_none (df : DataFrame) (tk : Tickers)
    (he : df.isEmptyB = false) (hm : df.isMulti = false)
    (hmem : "Close" ∉ df.cols.map (fun c => c.1.headD "")) :
    normalize_close (some df) tk = DataFrame.emptyDF := by
  show (if df.isEmptyB then DataFrame.emptyDF
    else if df.isMulti then _ else _) = _
  rw [if_neg (by rw [he]; exact Bool.false_ne_true)]
  rw [if_neg (by rw [hm]; exact Bool.false_ne_true)]
  rw [if_neg hmem]

/-- The Schema Normalizer passes the raw input index through unchanged
(or returns the empty frame): it neither sorts, deduplicates nor
timezone-normalizes. -/
theorem normalize_close_index_passthrough (df : DataFrame) (tk : Tickers) :
    (normalize_close (some df) tk).index = df.index
    ∨ (normalize_close (some df) tk).index = [] := by
  by_cases he : df.isEmptyB = true
  · right
    rw [normalize_close_empty_case df tk he]
    rfl
  · have he2 : df.isEmptyB = false := eq_false_of_ne_true he
    by_cases hm : df.isMulti = true
    · by_cases h0 : "Close" ∈ df.getLevelValues 0
      · left
        rw [normalize_close_multi0 df tk he2 hm h0]
        rfl
      · by_cases h1 : "Close" ∈ df.getLevelValues 1
        · left
          rw [normalize_close_multi1 df tk he2 hm h0 h1]
          rfl
        · rw [normalize_close_multi_rest df tk he2 hm h0 h1]
          cases hfil : (List.range df.nlevels).filter
              (fun l => decide ("Close" ∈ df.getLevelValues l)) with
          | nil => right; rfl
          | cons l ls => left; rfl
    · have hm2 : df.isMulti = false := eq_false_of_ne_true hm
      by_cases hmem : "Close" ∈ df.cols.map (fun c => c.1.headD "")
      · left
        cases tk with
        | str t =>
          rw [normalize_close_flat_str df t he2 hm2 hmem]
        | list ts =>
          rw [normalize_close_flat_list df ts he2 hm2 hmem]
          split <;> rfl
      · right
        rw [normalize_close_flat_none df tk he2 hm2 hmem]
        rfl

/-- C9 counterexample: `_normalize_close` keeps the raw index as-is, so a
raw response whose index is decreasing and timezone-aware yields a
canonical frame whose index is neither strictly increasing nor
timezone-naive. -/
theorem C9_counterexample :
    ¬ List.Pairwise (fun a b : Timestamp => a.t < b.t)
        (normalize_close (some badFrame) (Tickers.str "AAA")).index
    ∧ (normalize_close (some badFrame) (Tickers.str "AAA")).index.all
        (fun ts => !ts.tz) = false := by
  constructor
  · intro hp
    have hidx : (normalize_close (some badFrame) (Tickers.str "AAA")).index
        = [⟨5, true⟩, ⟨3, true⟩] := rfl
    rw [hidx] at hp
    have h53 := List.rel_of_pairwise_cons hp
      (List.mem_singleton.mpr rfl)
    exact absurd h53 (by decide)
  · rfl

/-- C9 (amended): the Schema Normalizer passes the raw input index
through unchanged (or returns the empty frame), so its output satisfies
the strictly-increasing / duplicate-free / naive invariant exactly when
the raw input index does; and every successful yield-orchestrator result
is timezone-naive â in the program every success comes from the ^TNX
fallback, whose index is stripped by `tz_localize(None)`, because the
FRED success path is unreachable (app.py line 97 raises; see C3). -/
theorem C9_amended (df : DataFrame) (tk : Tickers)
    (fred : Except String FredCSV) (now : Int) (raw : Option DataFrame)
    (s2 : YieldFrame)
    (hok2 : fetch_10y_yield_series fred now raw = Except.ok s2) :
    ((normalize_close (some df) tk).index = df.index
      ∨ (normalize_close (some df) tk).index = [])
    ∧ s2.all (fun p => !p.1.tz) = true := by
  refine ⟨normalize_close_index_passthrough df tk, ?_⟩
  rw [fetch_10y_yield_series] at hok2
  cases hf : fetch_fred_10y_csv fred now with
  | ok s3 => exact absurd hf (fred_never_ok fred now s3)
  | error e2 =>
    rw [hf] at hok2
    by_cases he2 : (normalize_close raw (Tickers.str "^TNX")).isEmptyB
        = true
    · rw [if_pos he2] at hok2
      exact absurd hok2 (by simp)
    · rw [if_neg he2] at hok2
      have hz := Except.ok.inj hok2
      rw [← hz, List.all_eq_true]
      intro p hp
      obtain ⟨ts, _, hts⟩ := List.mem_map.mp (List.of_mem_zip hp).1
      rw [← hts]
      rfl

/-- C9 witness: a flat Close frame passes its index through, and an
orchestrator success obtained via the ^TNX fallback (over a tz-aware raw
index) is timezone-naive. -/
theorem C9_witness :
    ((normalize_close (some ⟨false, [⟨0, false⟩], [(["Close"], [some 7])]⟩)
        (Tickers.str "Z")).index
      = (⟨false, [⟨0, false⟩], [(["Close"], [some 7])]⟩ : DataFrame).index
      ∨ (normalize_close (some ⟨false, [⟨0, false⟩], [(["Close"], [some 7])]⟩)
        (Tickers.str "Z")).index = [])
    ∧ ([(⟨0, false⟩, some ((7 : Rat) / 10))] : YieldFrame).all
        (fun p => !p.1.tz) = true :=
  C9_amended ⟨false, [⟨0, false⟩], [(["Close"], [some 7])]⟩ (Tickers.str "Z")
    (Except.error "net down") 0
    (some ⟨false, [⟨0, true⟩], [(["Close"], [some 7])]⟩)
    [(⟨0, false⟩, some ((7 : Rat) / 10))] rfl
